import Mathlib

/-!
Shallow embedding of `shifter_pandas/bp.py` (class `BPDatasource`): the
layout-scanning `metadata` method and the row-materializing `datasource`
method. Spreadsheet cells are addressed 1-based by (row, column), as in
`worksheet.cell(row, column).value`. Machine floats of the source are
modelled as rationals; the constant `3.6` of the source is the rational
`36 / 10`. The two `while True` loops of the source are modelled with a
fuel parameter: a result `none` (or `MRes.diverge`) means the loop has not
finished within `fuel` iterations, so the loop diverges exactly when that
holds for every fuel.
-/

/-- A cell value of the workbook grid: an integer, a floating-point number
(modelled as a rational), or a text string. An empty cell is `none` at the
`Sheet.cell` level. -/
inductive CellValue : Type where
  | vInt : Int → CellValue
  | vFloat : Rat → CellValue
  | vStr : String → CellValue
deriving DecidableEq

/-- A worksheet: a name and a grid of cells; `s.cell r c` is
`worksheet.cell(r, c).value`, with `none` for an empty cell. -/
structure Sheet : Type where
  name : String
  cell : Nat → Nat → Option CellValue

/-- The workbook: its sheets in order (`xlsx.worksheets`, whose names are
`xlsx.sheetnames`). -/
abbrev Workbook := List Sheet

/-- An entry of the year axis: the dict `{"label": value, "index": index}`
built at `bp.py` line 68; the label is the (possibly empty) cell at row 3. -/
structure YearEntry : Type where
  label : Option CellValue
  index : Nat
deriving DecidableEq

/-- An entry of the region axis: the dict `{"label": value, "index": index}`
built at `bp.py` line 79; appended only when the cell is non-empty. -/
structure RegionEntry : Type where
  label : CellValue
  index : Nat
deriving DecidableEq

/-- Year-axis scan, `bp.py` lines 62-69: starting at column `index`, read the
label cell at row 3, then break when the marker cell at row 2 of the same
column is non-empty (the current column is not included); otherwise append
`{"label": value, "index": index}` and move one column right. The source loop
is `while True:`; `fuel` bounds how many iterations we unfold, and `none`
means the loop has not terminated within `fuel` iterations. -/
def yearsAux (s : Sheet) : Nat → Nat → List YearEntry → Option (List YearEntry)
  | 0, _, _ => none
  | fuel + 1, index, acc =>
    let value := s.cell 3 index
    if s.cell 2 index ≠ none then
      some acc.reverse
    else
      yearsAux s fuel (index + 1) ({ label := value, index := index } :: acc)

/-- Region-axis scan, `bp.py` lines 72-83: starting at row `index` with
`nb_empty_cells = nbEmpty`, read the cell at column 1. When it is non-empty,
reset the counter to 0 and append the entry; then (in either case) the counter
is incremented by one, the loop breaks when the counter exceeds 5, and
otherwise moves one row down. Note the increment is unconditional in the
source, so after a labelled row the counter is `0 + 1`. `none` means the loop
has not terminated within `fuel` iterations. -/
def regionsAux (s : Sheet) : Nat → Nat → Nat → List RegionEntry → Option (List RegionEntry)
  | 0, _, _, _ => none
  | fuel + 1, index, nbEmpty, acc =>
    match s.cell index 1 with
    | some v =>
      if 0 + 1 > 5 then some ({ label := v, index := index } :: acc).reverse
      else regionsAux s fuel (index + 1) (0 + 1) ({ label := v, index := index } :: acc)
    | none =>
      if nbEmpty + 1 > 5 then some acc.reverse
      else regionsAux s fuel (index + 1) (nbEmpty + 1) acc

/-- Qualification probe, `bp.py` line 60: a sheet is processed iff the cell at
row 3, column 2 holds an integer (`isinstance(..., int)`). -/
def qualifies (s : Sheet) : Bool :=
  match s.cell 3 2 with
  | some (CellValue.vInt _) => true
  | _ => false

/-- Errors raised by the embedded code, named after the spec's taxonomy where
it names them. `malformedSheet` is the failure of
`cell(3, 1).value.strip()` (line 88) when the unit cell does not hold a
string, in particular when it is empty. -/
inductive ExtractError : Type where
  | malformedSheet : ExtractError
  | typeError : ExtractError
  | attributeError : ExtractError
  | zeroDivisionError : ExtractError
deriving DecidableEq

/-- Python's `str.strip()`: remove whitespace from both ends of the string. -/
def pyStrip (s : String) : String :=
  ⟨((s.data.dropWhile Char.isWhitespace).reverse.dropWhile Char.isWhitespace).reverse⟩

/-- `cell(3, 1).value.strip()` (line 88): defined only when the cell holds a
string, whose surrounding whitespace is removed; anything else (in particular
an empty cell) fails. -/
def stripUnit : Option CellValue → Except ExtractError String
  | some (CellValue.vStr s) => Except.ok (pyStrip s)
  | _ => Except.error ExtractError.malformedSheet

/-- Sheet-name suffix stripping, `bp.py` lines 53-58: three successive `if`s
removing a trailing unit suffix. -/
def sheetLabel (name : String) : String :=
  let n1 := if name.endsWith " - TWh" then name.dropRight 6 else name
  let n2 := if n1.endsWith " - EJ" then n1.dropRight 5 else n1
  if n2.endsWith " - PJ" then n2.dropRight 5 else n2

/-- One metadata record, the dict appended at `bp.py` lines 84-92. -/
structure SheetMeta : Type where
  label : String
  index : Nat
  unit : String
  years : List YearEntry
  regions : List RegionEntry
deriving DecidableEq

/-- Result of a fuel-bounded computation that may also raise: `diverge` means
some inner `while True` loop has not finished within the given fuel. -/
inductive MRes (α : Type) : Type where
  | diverge : MRes α
  | err : ExtractError → MRes α
  | ok : α → MRes α
deriving DecidableEq

/-- The body of `metadata` for one qualifying sheet (`bp.py` lines 61-92):
year axis, then region axis, then the stripped unit cell; the source reads
the unit cell while building the dict, i.e. after both scans. -/
def sheetMetadata (s : Sheet) (idx fuel : Nat) : MRes SheetMeta :=
  match yearsAux s fuel 2 [] with
  | none => MRes.diverge
  | some years =>
    match regionsAux s fuel 5 0 [] with
    | none => MRes.diverge
    | some regions =>
      match stripUnit (s.cell 3 1) with
      | Except.error e => MRes.err e
      | Except.ok u =>
        MRes.ok { label := sheetLabel s.name, index := idx, unit := u,
                  years := years, regions := regions }

/-- The sheet loop of `BPDatasource.metadata` (lines 52-92), starting at sheet
index `idx`: non-qualifying sheets are skipped silently, and a raised error or
a diverging scan aborts the whole call. -/
def metadataAux : List Sheet → Nat → Nat → MRes (List SheetMeta)
  | [], _, _ => MRes.ok []
  | s :: rest, idx, fuel =>
    if qualifies s then
      match sheetMetadata s idx fuel with
      | MRes.diverge => MRes.diverge
      | MRes.err e => MRes.err e
      | MRes.ok m =>
        match metadataAux rest (idx + 1) fuel with
        | MRes.diverge => MRes.diverge
        | MRes.err e => MRes.err e
        | MRes.ok ms => MRes.ok (m :: ms)
    else
      metadataAux rest (idx + 1) fuel

/-- `BPDatasource.metadata` (`bp.py` lines 49-94). -/
def metadata (wb : Workbook) (fuel : Nat) : MRes (List SheetMeta) :=
  metadataAux wb 0 fuel

/-- What `wdds.get_region` returns when it finds a match: a dict with the
keys `id` and `type`. -/
structure RegionRef : Type where
  id : String
  rtype : String
deriving DecidableEq

/-- The Wikidata collaborator (external): region resolution and item fetch,
`get_item(id, with_name, with_id, properties, ...)` returning the mapping of
enrichment columns merged into the row. -/
structure WikidataDS : Type where
  getRegion : String → Option RegionRef
  getItem : Option String → Bool → Bool → List String → List (String × Option CellValue)

/-- The enrichment part of one output row (`bp.py` lines 172-186): the
`WikidataType` entry, set whenever the enrichment branch runs, and the
mapping merged in by `element.update(...)`. -/
structure WikidataFields : Type where
  wtype : Option String
  item : List (String × Option CellValue)
deriving DecidableEq

/-- One output row, the dict built at `bp.py` lines 164-171 (plus the
enrichment entries of lines 172-186 when the enrichment branch runs). -/
structure OutputRow : Type where
  value : Rat
  typeLabel : String
  unit : Option CellValue
  typeUnit : String
  year : Option CellValue
  region : CellValue
  wikidata : Option WikidataFields
deriving DecidableEq

/-- The keyword arguments of `BPDatasource.datasource` (lines 96-107). The
filter lists hold arbitrary cell-like values compared by Python equality;
`wikidataProperties` is the list after the `None -> []` defaulting of
lines 111-112. -/
structure DSOptions : Type where
  typesFilter : Option (List (Option CellValue)) := none
  regionsFilter : Option (List (Option CellValue)) := none
  unitsFilter : Option (List (Option CellValue)) := none
  yearsFilter : Option (List (Option CellValue)) := none
  yearsFactor : Option Int := none
  coherentUnits : Bool := true
  wikidataId : Bool := false
  wikidataType : Bool := false
  wikidataName : Bool := false
  wikidataProperties : List String := []

/-- Line 113: `wikidata = wikidata_id or wikidata_name or wikidata_properties`.
Note that `wikidata_type` does not appear, and an empty property list is
falsy. -/
def wdFlag (o : DSOptions) : Bool :=
  o.wikidataId || o.wikidataName || !o.wikidataProperties.isEmpty

/-- The numeric-cell test of lines 145-147: the value is kept iff it is an
`int` or a `float`. -/
def numVal : Option CellValue → Option Rat
  | some (CellValue.vInt n) => some (n : Rat)
  | some (CellValue.vFloat q) => some q
  | _ => none

/-- The test `x not in allowList` for an optional allow-list (lines 134, 138,
143, 151): `true` means the row is skipped. -/
def blockedByFilter (fl : Option (List (Option CellValue))) (x : Option CellValue) : Bool :=
  match fl with
  | none => false
  | some l => !(decide (x ∈ l))

/-- Coherent-unit conversion, lines 153-162: three successive `if`s on the
current `(value, unit)` pair; `3.6` of the source is `36 / 10`. -/
def coherentApply : Bool → Rat × Option CellValue → Rat × Option CellValue
  | false, p => p
  | true, p =>
    let p1 := if p.2 = some (CellValue.vStr "Terawatt-hours") then
        (p.1 * (36 / 10 : Rat), some (CellValue.vStr "Petajoules")) else p
    let p2 := if p1.2 = some (CellValue.vStr "Exajoules") then
        (p1.1 * 1000, some (CellValue.vStr "Petajoules")) else p1
    if p2.2 = some (CellValue.vStr "Exajoules (input-equivalent)") then
      (p2.1 * 1000, some (CellValue.vStr "Petajoules (input-equivalent)"))
    else p2

/-- Python `str()` of a cell value, as interpolated into the `TypeUnit`
f-string of line 170. -/
def pyRepr : Option CellValue → String
  | none => "None"
  | some (CellValue.vStr s) => s
  | some (CellValue.vInt n) => toString n
  | some (CellValue.vFloat q) => toString q

/-- The decimation test `year["label"] % years_factor != 0` of line 140:
`true` means the year is skipped. Python raises on a zero factor and on a
label that is neither an `int` nor a `float`; the float case is Python's
float modulo `q - f * floor(q / f)`. -/
def yearFactorSkip (factor : Option Int) (label : Option CellValue) : Except ExtractError Bool :=
  match factor with
  | none => Except.ok false
  | some f =>
    if f = 0 then Except.error ExtractError.zeroDivisionError
    else
      match label with
      | some (CellValue.vInt n) => Except.ok (decide (n % f ≠ 0))
      | some (CellValue.vFloat q) =>
        Except.ok (decide (q - (f : Rat) * ((⌊q / (f : Rat)⌋ : Int) : Rat) ≠ 0))
      | _ => Except.error ExtractError.typeError

/-- The loop body for one (year, region) cell, lines 145-187: `ok none` when
the cell is skipped (not numeric, or the unit filter rejects the sheet's raw
unit cell); otherwise the constructed row. The unit tested and stored is the
raw value of cell (3, 1) (line 149) with no trimming; the enrichment branch
(lines 172-186) runs only when `wdFlag` holds, strips a leading
`"Total "` from the region label (which must be a string, else Python's
attribute error), and merges the fetched mapping. -/
def cellRow (s : Sheet) (typeLabel : String) (o : DSOptions) (w : WikidataDS)
    (year : YearEntry) (region : RegionEntry) : Except ExtractError (Option OutputRow) :=
  match numVal (s.cell region.index year.index) with
  | none => Except.ok none
  | some value =>
    let unit := s.cell 3 1
    if blockedByFilter o.unitsFilter unit then Except.ok none
    else
      let vu := coherentApply o.coherentUnits (value, unit)
      let base : OutputRow :=
        { value := vu.1, typeLabel := typeLabel, unit := vu.2,
          typeUnit := typeLabel ++ " [" ++ pyRepr vu.2 ++ "]",
          year := year.label, region := region.label, wikidata := none }
      if wdFlag o then
        match region.label with
        | CellValue.vStr rl =>
          let key := if rl.startsWith "Total " then rl.drop 6 else rl
          let rid := w.getRegion key
          let fields : WikidataFields :=
            { wtype := Option.map RegionRef.rtype rid,
              item := w.getItem (Option.map RegionRef.id rid)
                o.wikidataName o.wikidataId o.wikidataProperties }
          Except.ok (some { base with wikidata := some fields })
        | _ => Except.error ExtractError.attributeError
      else Except.ok (some base)

/-- The inner region loop, lines 142-187: regions failing the region filter
are skipped, and the rows of the remaining cells are emitted in region
order. -/
def regionRows (s : Sheet) (typeLabel : String) (o : DSOptions) (w : WikidataDS)
    (year : YearEntry) : List RegionEntry → Except ExtractError (List OutputRow)
  | [] => Except.ok []
  | region :: rest =>
    if blockedByFilter o.regionsFilter (some region.label) then
      regionRows s typeLabel o w year rest
    else
      match cellRow s typeLabel o w year region with
      | Except.error e => Except.error e
      | Except.ok r =>
        match regionRows s typeLabel o w year rest with
        | Except.error e => Except.error e
        | Except.ok rs =>
          Except.ok (match r with | some row => row :: rs | none => rs)

/-- The year loop, lines 137-187: years failing the year filter or the
decimation test are skipped. -/
def yearRows (s : Sheet) (typeLabel : String) (o : DSOptions) (w : WikidataDS)
    (regions : List RegionEntry) : List YearEntry → Except ExtractError (List OutputRow)
  | [] => Except.ok []
  | year :: rest =>
    if blockedByFilter o.yearsFilter year.label then
      yearRows s typeLabel o w regions rest
    else
      match yearFactorSkip o.yearsFactor year.label with
      | Except.error e => Except.error e
      | Except.ok true => yearRows s typeLabel o w regions rest
      | Except.ok false =>
        match regionRows s typeLabel o w year regions with
        | Except.error e => Except.error e
        | Except.ok rows =>
          match yearRows s typeLabel o w regions rest with
          | Except.error e => Except.error e
          | Except.ok more => Except.ok (rows ++ more)

/-- All rows emitted for one sheet's metadata record. -/
def sheetRows (s : Sheet) (m : SheetMeta) (o : DSOptions) (w : WikidataDS) :
    Except ExtractError (List OutputRow) :=
  yearRows s m.label o w m.regions m.years

/-- A stand-in sheet for an out-of-range index; `metadata` only produces
in-range indices. -/
def emptySheet : Sheet := { name := "", cell := fun _ _ => none }

/-- The sheet loop of `datasource`, lines 128-187: metadata records failing
the type filter are skipped; the cells are read from the sheet at the
record's index. -/
def dsRows (wb : Workbook) (o : DSOptions) (w : WikidataDS) :
    List SheetMeta → Except ExtractError (List OutputRow)
  | [] => Except.ok []
  | m :: rest =>
    if blockedByFilter o.typesFilter (some (CellValue.vStr m.label)) then
      dsRows wb o w rest
    else
      match sheetRows ((wb.get? m.index).getD emptySheet) m o w with
      | Except.error e => Except.error e
      | Except.ok rows =>
        match dsRows wb o w rest with
        | Except.error e => Except.error e
        | Except.ok more => Except.ok (rows ++ more)

/-- `BPDatasource.datasource` (lines 96-189) as its emitted row sequence:
`metadata` is recomputed (line 128) and its failure or divergence aborts the
call. -/
def datasource (wb : Workbook) (o : DSOptions) (w : WikidataDS) (fuel : Nat) :
    MRes (List OutputRow) :=
  match metadata wb fuel with
  | MRes.diverge => MRes.diverge
  | MRes.err e => MRes.err e
  | MRes.ok ms =>
    match dsRows wb o w ms with
    | Except.error e => MRes.err e
    | Except.ok rows => MRes.ok rows

/-! Concrete sheets, workbooks and option records used to instantiate
theorems on explicit inputs. -/

/-- A Wikidata collaborator that never matches and fetches nothing. -/
def noWD : WikidataDS :=
  { getRegion := fun _ => none, getItem := fun _ _ _ _ => [] }

/-- Column 1 holds labels at rows 5 and 11 only: a run of exactly five
empty-label rows (6-10) separates the two labels. -/
def c1CounterSheet : Sheet :=
  { name := "c1c",
    cell := fun r c =>
      if c = 1 then (if r = 5 ∨ r = 11 then some (CellValue.vStr "A") else none)
      else none }

/-- Column 1 holds labels at rows 5, 6 and 8 only: a single blank row at 7
inside the block, all rows from 9 on blank. -/
def c1ExampleSheet : Sheet :=
  { name := "c1e",
    cell := fun r c =>
      if c = 1 then (if r = 5 ∨ r = 6 ∨ r = 8 then some (CellValue.vStr "R") else none)
      else none }

/-- Row 2 holds marker values at columns 2 and 5 only; row 3 holds integers
everywhere. -/
def c4CounterSheet : Sheet :=
  { name := "c4c",
    cell := fun r c =>
      if r = 2 then (if c = 2 ∨ c = 5 then some (CellValue.vStr "M") else none)
      else if r = 3 then some (CellValue.vInt 1965)
      else none }

/-- Row 2 holds a marker value at column 5 only; row 3 holds integers
everywhere. -/
def c4WitnessSheet : Sheet :=
  { name := "c4w",
    cell := fun r c =>
      if r = 2 then (if c = 5 then some (CellValue.vStr "M") else none)
      else if r = 3 then some (CellValue.vInt 1965)
      else none }

/-- Row 2 is entirely empty: the year-axis loop has no stopping marker. -/
def c9NoMarkerSheet : Sheet :=
  { name := "c9n",
    cell := fun r c =>
      if r = 3 then (if c = 2 then some (CellValue.vInt 2000) else none)
      else none }

/-- Row 2 holds a marker value at column 4 only. -/
def c9MarkerSheet : Sheet :=
  { name := "c9m",
    cell := fun r c =>
      if r = 2 then (if c = 4 then some (CellValue.vStr "M") else none)
      else if r = 3 then some (CellValue.vInt 2000)
      else none }

/-- A qualifying sheet with declared unit `"Terawatt-hours"`, one year column
(2) and one region row (5), whose single data cell holds the integer 10. -/
def twhSheet : Sheet :=
  { name := "Oil",
    cell := fun r c =>
      if r = 2 then (if c = 3 then some (CellValue.vStr "M") else none)
      else if r = 3 then
        (if c = 1 then some (CellValue.vStr "Terawatt-hours")
         else if c = 2 then some (CellValue.vInt 1965) else none)
      else if r = 5 then
        (if c = 1 then some (CellValue.vStr "World")
         else if c = 2 then some (CellValue.vInt 10) else none)
      else none }

/-- The metadata record `metadata` derives for `twhSheet` at sheet index 0. -/
def twhMeta : SheetMeta :=
  { label := "Oil", index := 0, unit := "Terawatt-hours",
    years := [{ label := some (CellValue.vInt 1965), index := 2 }],
    regions := [{ label := CellValue.vStr "World", index := 5 }] }

/-- Like `twhSheet` but with the non-convertible declared unit `"U"` and data
value 7. -/
def plainSheet : Sheet :=
  { name := "Oil",
    cell := fun r c =>
      if r = 2 then (if c = 3 then some (CellValue.vStr "M") else none)
      else if r = 3 then
        (if c = 1 then some (CellValue.vStr "U")
         else if c = 2 then some (CellValue.vInt 1965) else none)
      else if r = 5 then
        (if c = 1 then some (CellValue.vStr "World")
         else if c = 2 then some (CellValue.vInt 7) else none)
      else none }

def plainWb : Workbook := [plainSheet]

/-- Like `twhSheet` but the unit cell carries surrounding whitespace. -/
def padSheet : Sheet :=
  { name := "Oil",
    cell := fun r c =>
      if r = 2 then (if c = 3 then some (CellValue.vStr "M") else none)
      else if r = 3 then
        (if c = 1 then some (CellValue.vStr " Terawatt-hours ")
         else if c = 2 then some (CellValue.vInt 1965) else none)
      else if r = 5 then
        (if c = 1 then some (CellValue.vStr "World")
         else if c = 2 then some (CellValue.vInt 10) else none)
      else none }

/-- The metadata record for `padSheet` at index 0 (unit reported trimmed). -/
def padMeta : SheetMeta :=
  { label := "Oil", index := 0, unit := "Terawatt-hours",
    years := [{ label := some (CellValue.vInt 1965), index := 2 }],
    regions := [{ label := CellValue.vStr "World", index := 5 }] }

/-- Two year columns (2, 3) and two region rows (5, 6); the cell at (6, 2)
holds text, the other three data cells are numeric. -/
def mixSheet : Sheet :=
  { name := "Gas",
    cell := fun r c =>
      if r = 2 then (if c = 4 then some (CellValue.vStr "M") else none)
      else if r = 3 then
        (if c = 1 then some (CellValue.vStr "U")
         else if c = 2 then some (CellValue.vInt 1965)
         else if c = 3 then some (CellValue.vInt 1966) else none)
      else if r = 5 then
        (if c = 1 then some (CellValue.vStr "A")
         else if c = 2 then some (CellValue.vInt 1)
         else if c = 3 then some (CellValue.vFloat (5 / 2)) else none)
      else if r = 6 then
        (if c = 1 then some (CellValue.vStr "B")
         else if c = 2 then some (CellValue.vStr "n/a")
         else if c = 3 then some (CellValue.vInt 4) else none)
      else none }

/-- The metadata record for `mixSheet` at index 0. -/
def mixMeta : SheetMeta :=
  { label := "Gas", index := 0, unit := "U",
    years := [{ label := some (CellValue.vInt 1965), index := 2 },
              { label := some (CellValue.vInt 1966), index := 3 }],
    regions := [{ label := CellValue.vStr "A", index := 5 },
                { label := CellValue.vStr "B", index := 6 }] }

/-- A qualifying sheet whose unit cell (3, 1) is empty. -/
def c2Sheet : Sheet :=
  { name := "Bad",
    cell := fun r c =>
      if r = 2 then (if c = 3 then some (CellValue.vStr "M") else none)
      else if r = 3 then (if c = 2 then some (CellValue.vInt 1999) else none)
      else if r = 5 then (if c = 1 then some (CellValue.vStr "W") else none)
      else none }

def c2Wb : Workbook := [c2Sheet]

/-- A sheet with no cell content at all: its probe cell is empty, so it does
not qualify. -/
def coverSheet : Sheet := { name := "Contents", cell := fun _ _ => none }

def c8Wb : Workbook := [coverSheet, plainSheet]

/-- All-default options: no filters, `coherent_units=True`, no enrichment. -/
def oDefault : DSOptions := {}

/-- Only `wikidata_type=True` requested; every other enrichment option off. -/
def oTypeOnly : DSOptions := { wikidataType := true }

/-- A unit filter allowing only `"Petajoules"`. -/
def oPJFilter : DSOptions := { unitsFilter := some [some (CellValue.vStr "Petajoules")] }

/-- A unit filter holding the trimmed unit string that `metadata` reports for
`padSheet`. -/
def oTrimFilter : DSOptions := { unitsFilter := some [some (CellValue.vStr "Terawatt-hours")] }

/-- Default options with `coherent_units=False`. -/
def oNoCoherent : DSOptions := { coherentUnits := false }

/-- The metadata record `metadata` derives for `plainSheet` as sheet 1 of
`c8Wb`. -/
def c8Meta : SheetMeta :=
  { label := "Oil", index := 1, unit := "U",
    years := [{ label := some (CellValue.vInt 1965), index := 2 }],
    regions := [{ label := CellValue.vStr "World", index := 5 }] }

/-- The single row `datasource` emits for `plainWb`: the non-convertible unit
passes through and no enrichment fields are present. -/
def c7Row : OutputRow :=
  { value := 7, typeLabel := "Oil", unit := some (CellValue.vStr "U"),
    typeUnit := "Oil [U]", year := some (CellValue.vInt 1965),
    region := CellValue.vStr "World", wikidata := none }

/-- The single row emitted for `twhSheet` under default options: the raw value
10 declared in Terawatt-hours is emitted as 36 Petajoules. -/
def c10Row : OutputRow :=
  { value := 36, typeLabel := "Oil", unit := some (CellValue.vStr "Petajoules"),
    typeUnit := "Oil [Petajoules]", year := some (CellValue.vInt 1965),
    region := CellValue.vStr "World", wikidata := none }

/-- The row built for a numeric cell when no enrichment option is requested:
the `element` dict of lines 164-171. -/
def plainRow (s : Sheet) (tl : String) (coherent : Bool) (y : YearEntry)
    (rg : RegionEntry) (q : Rat) : OutputRow :=
  { value := (coherentApply coherent (q, s.cell 3 1)).1, typeLabel := tl,
    unit := (coherentApply coherent (q, s.cell 3 1)).2,
    typeUnit := tl ++ " [" ++ pyRepr (coherentApply coherent (q, s.cell 3 1)).2 ++ "]",
    year := y.label, region := rg.label, wikidata := none }

/-- Only `wikidata_id=True` requested. -/
def oWdId : DSOptions := { wikidataId := true }

/-- The row emitted for `plainSheet` when `wikidata_id=True` against the
never-matching collaborator: enrichment fields present but null. -/
def c7wRow : OutputRow :=
  { value := 7, typeLabel := "Oil", unit := some (CellValue.vStr "U"),
    typeUnit := "Oil [U]", year := some (CellValue.vInt 1965),
    region := CellValue.vStr "World", wikidata := some { wtype := none, item := [] } }

deriving instance DecidableEq for Except

/-! Unfolding lemmas for the two fuel-bounded scans. -/

theorem yearsAux_stop (s : Sheet) {idx : Nat} (h : s.cell 2 idx ≠ none)
    (fuel : Nat) (acc : List YearEntry) :
    yearsAux s (fuel + 1) idx acc = some acc.reverse := by
  simp [yearsAux, h]

theorem yearsAux_step (s : Sheet) {idx : Nat} (h : s.cell 2 idx = none)
    (fuel : Nat) (acc : List YearEntry) :
    yearsAux s (fuel + 1) idx acc =
      yearsAux s fuel (idx + 1) ({ label := s.cell 3 idx, index := idx } :: acc) := by
  simp [yearsAux, h]

theorem regionsAux_label (s : Sheet) {idx : Nat} {v : CellValue}
    (h : s.cell idx 1 = some v) (fuel nb : Nat) (acc : List RegionEntry) :
    regionsAux s (fuel + 1) idx nb acc =
      regionsAux s fuel (idx + 1) 1 ({ label := v, index := idx } :: acc) := by
  simp [regionsAux, h]

theorem regionsAux_empty_cont (s : Sheet) {idx nb : Nat} (h : s.cell idx 1 = none)
    (hn : nb + 1 ≤ 5) (fuel : Nat) (acc : List RegionEntry) :
    regionsAux s (fuel + 1) idx nb acc = regionsAux s fuel (idx + 1) (nb + 1) acc := by
  simp only [regionsAux, h]
  rw [if_neg (by omega)]

theorem regionsAux_empty_break (s : Sheet) {idx nb : Nat} (h : s.cell idx 1 = none)
    (hn : 5 < nb + 1) (fuel : Nat) (acc : List RegionEntry) :
    regionsAux s (fuel + 1) idx nb acc = some acc.reverse := by
  simp only [regionsAux, h]
  rw [if_pos (by omega)]

/-- When row 2 has no non-empty cell at or after the scan position, the
year-axis loop never breaks: every fuel is exhausted. -/
theorem yearsAux_no_marker (s : Sheet) :
    ∀ (fuel idx : Nat) (acc : List YearEntry),
      (∀ j, idx ≤ j → s.cell 2 j = none) →
      yearsAux s fuel idx acc = none := by
  intro fuel
  induction fuel with
  | zero => intro idx acc _; rfl
  | succ fuel ih =>
    intro idx acc h
    rw [yearsAux_step s (h idx le_rfl)]
    exact ih (idx + 1) _ (fun j hj => h j (by omega))

/-- When the marker cells are empty for `n` columns from the scan position and
non-empty right after, the loop collects exactly those `n` columns and breaks
before the marker column, given fuel for the `n + 1` iterations. -/
theorem yearsAux_run (s : Sheet) :
    ∀ (n idx fuel : Nat) (acc : List YearEntry),
      (∀ j, idx ≤ j → j < idx + n → s.cell 2 j = none) →
      s.cell 2 (idx + n) ≠ none →
      n + 1 ≤ fuel →
      yearsAux s fuel idx acc =
        some (acc.reverse ++
          (List.range' idx n).map (fun j => { label := s.cell 3 j, index := j })) := by
  intro n
  induction n with
  | zero =>
    intro idx fuel acc _ hstop hfuel
    obtain ⟨fuel, rfl⟩ : ∃ f, fuel = f + 1 := ⟨fuel - 1, by omega⟩
    rw [yearsAux_stop s (by simpa using hstop)]
    simp [List.range']
  | succ n ih =>
    intro idx fuel acc hemp hstop hfuel
    obtain ⟨fuel, rfl⟩ : ∃ f, fuel = f + 1 := ⟨fuel - 1, by omega⟩
    rw [yearsAux_step s (hemp idx le_rfl (by omega))]
    have hstop2 : s.cell 2 (idx + 1 + n) ≠ none := by
      rw [show idx + 1 + n = idx + (n + 1) by omega]
      exact hstop
    rw [ih (idx + 1) fuel _ (fun j h1 h2 => hemp j (by omega) (by omega)) hstop2 (by omega)]
    simp [List.range'_succ]

/-- C9: the year-axis scan terminates only via the marker condition. When some
column at or right of column 2 has a non-empty row-2 marker cell, the scan
breaks at the first such column (collecting exactly the columns before it,
with enough fuel); when no such column exists, the scan does not terminate:
it exhausts every fuel. -/
theorem c9_year_scan_termination (s : Sheet) :
    ((∀ j, 2 ≤ j → s.cell 2 j = none) → ∀ fuel, yearsAux s fuel 2 [] = none) ∧
    (∀ k, 2 ≤ k → s.cell 2 k ≠ none →
      (∀ j, 2 ≤ j → j < k → s.cell 2 j = none) →
      ∀ fuel, k - 1 ≤ fuel →
        yearsAux s fuel 2 [] =
          some ((List.range' 2 (k - 2)).map (fun j => { label := s.cell 3 j, index := j }))) := by
  constructor
  · intro h fuel
    exact yearsAux_no_marker s fuel 2 [] (fun j hj => h j hj)
  · intro k hk hstop hemp fuel hfuel
    have h2 : 2 + (k - 2) = k := by omega
    have := yearsAux_run s (k - 2) 2 fuel []
      (fun j hj1 hj2 => hemp j hj1 (by omega)) (by rw [h2]; exact hstop) (by omega)
    simpa using this

/-- Witness for C9: on a sheet with an empty row 2 the scan returns no result
at fuel 37, and on a sheet whose only marker is at column 4 it stops there,
collecting columns 2 and 3. -/
theorem c9_witness :
    yearsAux c9NoMarkerSheet 37 2 [] = none ∧
    yearsAux c9MarkerSheet 5 2 [] =
      some [{ label := some (CellValue.vInt 2000), index := 2 },
            { label := some (CellValue.vInt 2000), index := 3 }] := by
  constructor
  · exact (c9_year_scan_termination c9NoMarkerSheet).1 (fun j hj => rfl) 37
  · have := (c9_year_scan_termination c9MarkerSheet).2 4 (by omega) (by decide)
      (fun j h1 h2 => by interval_cases j <;> rfl) 5 (by omega)
    simpa [List.range'] using this

/-- C4 counterexample: on a sheet whose row-2 marker cells are non-empty at
columns 2 and 5 only, the year axis is empty — the scan stops before
column 2 itself — not the columns 2, 3, 4 the claim asserts. -/
theorem c4_counterexample :
    yearsAux c4CounterSheet 10 2 [] = some [] ∧
    (yearsAux c4CounterSheet 10 2 []).map (List.map YearEntry.index) ≠ some [2, 3, 4] := by
  decide

/-- C4 amended: year-axis discovery scans rightward from column 2 of row 3 and
stops before including the first column whose row-2 marker cell is non-empty;
for a sheet with a marker value at column 5 and none at columns 2-4, the year
axis contains exactly columns 2, 3, 4 (stop-before, not stop-after). -/
theorem c4_amended (s : Sheet) (fuel : Nat)
    (h2 : s.cell 2 2 = none) (h3 : s.cell 2 3 = none) (h4 : s.cell 2 4 = none)
    (h5 : s.cell 2 5 ≠ none) (hfuel : 4 ≤ fuel) :
    yearsAux s fuel 2 [] =
      some [{ label := s.cell 3 2, index := 2 }, { label := s.cell 3 3, index := 3 },
            { label := s.cell 3 4, index := 4 }] ∧
    List.map YearEntry.index
      [({ label := s.cell 3 2, index := 2 } : YearEntry), { label := s.cell 3 3, index := 3 },
       { label := s.cell 3 4, index := 4 }] = [2, 3, 4] := by
  constructor
  · have := yearsAux_run s 3 2 fuel []
      (fun j hj1 hj2 => by interval_cases j <;> assumption) (by simpa using h5) (by omega)
    simpa [List.range'] using this
  · simp

/-- Witness for C4 (amended): the concrete sheet with its only marker at
column 5 yields the year axis at columns 2, 3, 4. -/
theorem c4_witness :
    yearsAux c4WitnessSheet 10 2 [] =
      some [{ label := some (CellValue.vInt 1965), index := 2 },
            { label := some (CellValue.vInt 1965), index := 3 },
            { label := some (CellValue.vInt 1965), index := 4 }] := by
  have := (c4_amended c4WitnessSheet 10 rfl rfl rfl (by decide) (by omega)).1
  simpa using this

/-- Entries already accumulated are part of any successful scan result. -/
theorem regionsAux_acc_mem (s : Sheet) :
    ∀ (fuel idx nb : Nat) (acc l : List RegionEntry) (e : RegionEntry),
      regionsAux s fuel idx nb acc = some l → e ∈ acc → e ∈ l := by
  intro fuel
  induction fuel with
  | zero => intro idx nb acc l e h _; simp [regionsAux] at h
  | succ fuel ih =>
    intro idx nb acc l e h he
    cases hc : s.cell idx 1 with
    | some v =>
      rw [regionsAux_label s hc] at h
      exact ih _ _ _ _ _ h (List.mem_cons_of_mem _ he)
    | none =>
      by_cases hn : 5 < nb + 1
      · rw [regionsAux_empty_break s hc hn] at h
        injection h with h
        rw [← h, List.mem_reverse]
        exact he
      · rw [regionsAux_empty_cont s hc (by omega)] at h
        exact ih _ _ _ _ _ h he

/-- Any entry of a successful scan result that is not already accumulated was
collected at its own row: the scan passed through that row with a non-empty
label, resetting the empty counter, and continued from the next row with
counter 1. -/
theorem regionsAux_reach (s : Sheet) :
    ∀ (fuel idx nb : Nat) (acc l : List RegionEntry) (v : CellValue) (r : Nat),
      regionsAux s fuel idx nb acc = some l →
      { label := v, index := r } ∈ l →
      (∀ e ∈ acc, e.index < idx) →
      { label := v, index := r } ∉ acc →
      ∃ (fuel2 : Nat) (acc2 : List RegionEntry),
        regionsAux s fuel2 (r + 1) 1 ({ label := v, index := r } :: acc2) = some l ∧
        (∀ e ∈ acc2, e.index < r) := by
  intro fuel
  induction fuel with
  | zero => intro idx nb acc l v r h _ _ _; simp [regionsAux] at h
  | succ fuel ih =>
    intro idx nb acc l v r h hm hbound hnot
    cases hc : s.cell idx 1 with
    | some w =>
      rw [regionsAux_label s hc] at h
      by_cases heq : ({ label := v, index := r } : RegionEntry) = { label := w, index := idx }
      · obtain ⟨hv, hr⟩ := RegionEntry.mk.injEq .. ▸ heq
        subst hv hr
        exact ⟨fuel, acc, h, hbound⟩
      · refine ih (idx + 1) 1 ({ label := w, index := idx } :: acc) l v r h hm ?_ ?_
        · intro e he
          rcases List.mem_cons.mp he with rfl | he2
          · exact Nat.lt_succ_self idx
          · exact lt_trans (hbound e he2) (Nat.lt_succ_self idx)
        · intro hmem
          rcases List.mem_cons.mp hmem with h1 | h2
          · exact heq h1
          · exact hnot h2
    | none =>
      by_cases hn : 5 < nb + 1
      · rw [regionsAux_empty_break s hc hn] at h
        injection h with h
        rw [← h, List.mem_reverse] at hm
        exact absurd hm hnot
      · rw [regionsAux_empty_cont s hc (by omega)] at h
        exact ih _ _ _ _ _ _ h hm
          (fun e he => lt_trans (hbound e he) (Nat.lt_succ_self idx)) hnot

/-- Running the scan over `j` empty-label rows just advances the position and
the empty counter, as long as the counter stays within the tolerance. -/
theorem regionsAux_walk (s : Sheet) :
    ∀ (j fuel idx nb : Nat) (acc l : List RegionEntry),
      regionsAux s fuel idx nb acc = some l →
      (∀ t, idx ≤ t → t < idx + j → s.cell t 1 = none) →
      nb + j ≤ 5 →
      ∃ fuel2, regionsAux s fuel2 (idx + j) (nb + j) acc = some l := by
  intro j
  induction j with
  | zero => intro fuel idx nb acc l h _ _; exact ⟨fuel, by simpa using h⟩
  | succ j ih =>
    intro fuel idx nb acc l h hemp hle
    match fuel, h with
    | 0, h => simp [regionsAux] at h
    | fuel + 1, h =>
      have hc : s.cell idx 1 = none := hemp idx le_rfl (by omega)
      rw [regionsAux_empty_cont s hc (by omega)] at h
      obtain ⟨fuel2, h2⟩ :=
        ih fuel (idx + 1) (nb + 1) acc l h (fun t h1 h2 => hemp t (by omega) (by omega))
          (by omega)
      refine ⟨fuel2, ?_⟩
      rw [show idx + (j + 1) = idx + 1 + j by omega, show nb + (j + 1) = nb + 1 + j by omega]
      exact h2

/-- C1 counterexample: labels at rows 5 and 11 with exactly five empty-label
rows (6-10) between them. The claim says a run of at most five empty rows is
tolerated and the later label still collected, but the scan breaks at row 10
and yields only the region at row 5: the label at row 11 is not collected. -/
theorem c1_counterexample :
    regionsAux c1CounterSheet 20 5 0 [] =
      some [{ label := CellValue.vStr "A", index := 5 }] ∧
    ({ label := CellValue.vStr "A", index := 11 } : RegionEntry) ∉
      [({ label := CellValue.vStr "A", index := 5 } : RegionEntry)] := by
  decide

/-- C1 amended: region-axis discovery (starting at row 5, labels read from
column 1) tolerates a run of at most 4 consecutive empty-label rows after a
collected label — scanning continues past such a run and the next labelled row
within that reach is still collected — while once a collected label is
followed by 5 or more consecutive empty-label rows, no row beyond it is
collected; in particular, labels at rows 5 and 6, a blank at row 7, a label at
row 8, then 6 consecutive blanks yields exactly the regions at rows 5, 6
and 8. -/
theorem c1_amended :
    (∀ (s : Sheet) (fuel : Nat) (l : List RegionEntry) (r r2 : Nat) (v v2 : CellValue),
        regionsAux s fuel 5 0 [] = some l →
        { label := v, index := r } ∈ l →
        r < r2 → r2 ≤ r + 5 →
        (∀ t, r < t → t < r2 → s.cell t 1 = none) →
        s.cell r2 1 = some v2 →
        { label := v2, index := r2 } ∈ l) ∧
    (∀ (s : Sheet) (fuel : Nat) (l : List RegionEntry) (r : Nat) (v : CellValue),
        regionsAux s fuel 5 0 [] = some l →
        { label := v, index := r } ∈ l →
        (∀ t, r < t → t ≤ r + 5 → s.cell t 1 = none) →
        ∀ e ∈ l, e.index ≤ r) ∧
    regionsAux c1ExampleSheet 20 5 0 [] =
      some [{ label := CellValue.vStr "R", index := 5 },
            { label := CellValue.vStr "R", index := 6 },
            { label := CellValue.vStr "R", index := 8 }] := by
  refine ⟨?_, ?_, by decide⟩
  · intro s fuel l r r2 v v2 h hm hlt hle hemp hcell
    obtain ⟨fuel2, acc2, h2, hb2⟩ :=
      regionsAux_reach s fuel 5 0 [] l v r h hm (by simp) (by simp)
    obtain ⟨fuel3, h3⟩ :=
      regionsAux_walk s (r2 - r - 1) fuel2 (r + 1) 1 _ l h2
        (fun t h1 h2x => hemp t (by omega) (by omega)) (by omega)
    rw [show r + 1 + (r2 - r - 1) = r2 by omega] at h3
    match fuel3, h3 with
    | 0, h3 => simp [regionsAux] at h3
    | fuel3 + 1, h3 =>
      rw [regionsAux_label s hcell] at h3
      exact regionsAux_acc_mem s _ _ _ _ _ _ h3 (List.mem_cons_self _ _)
  · intro s fuel l r v h hm hemp
    obtain ⟨fuel2, acc2, h2, hb2⟩ :=
      regionsAux_reach s fuel 5 0 [] l v r h hm (by simp) (by simp)
    obtain ⟨fuel3, h3⟩ :=
      regionsAux_walk s 4 fuel2 (r + 1) 1 _ l h2
        (fun t h1 h2x => hemp t (by omega) (by omega)) (by omega)
    rw [show r + 1 + 4 = r + 5 by omega] at h3
    match fuel3, h3 with
    | 0, h3 => simp [regionsAux] at h3
    | fuel3 + 1, h3 =>
      have hc : s.cell (r + 5) 1 = none := hemp (r + 5) (by omega) le_rfl
      rw [regionsAux_empty_break s hc (by omega)] at h3
      injection h3 with h3
      intro e he
      rw [← h3, List.mem_reverse] at he
      rcases List.mem_cons.mp he with rfl | he2
      · exact le_rfl
      · exact le_of_lt (hb2 e he2)

/-- Witness for C1 (amended): on the sheet with labels at rows 5, 6, 8, the
tolerance part collects row 8 past the blank at row 7, and the termination
part bounds every collected index by 8 since rows 9-13 are blank. -/
theorem c1_witness :
    ({ label := CellValue.vStr "R", index := 8 } : RegionEntry) ∈
      [({ label := CellValue.vStr "R", index := 5 } : RegionEntry),
       { label := CellValue.vStr "R", index := 6 },
       { label := CellValue.vStr "R", index := 8 }] ∧
    ∀ e ∈ [({ label := CellValue.vStr "R", index := 5 } : RegionEntry),
           { label := CellValue.vStr "R", index := 6 },
           { label := CellValue.vStr "R", index := 8 }], e.index ≤ 8 := by
  constructor
  · exact c1_amended.1 c1ExampleSheet 20 _ 6 8 (CellValue.vStr "R") (CellValue.vStr "R")
      (by decide) (by decide) (by omega) (by omega)
      (fun t h1 h2 => by interval_cases t; rfl) rfl
  · exact c1_amended.2.1 c1ExampleSheet 20 _ 8 (CellValue.vStr "R")
      (by decide) (by decide) (fun t h1 h2 => by interval_cases t <;> rfl)

/-- The strip of the unit cell can only fail one way. -/
theorem stripUnit_err (x : Option CellValue) (e : ExtractError)
    (h : stripUnit x = Except.error e) : e = ExtractError.malformedSheet := by
  match x with
  | none => injection h with h; exact h.symm
  | some (CellValue.vInt n) => injection h with h; exact h.symm
  | some (CellValue.vFloat q) => injection h with h; exact h.symm
  | some (CellValue.vStr u) => exact absurd h (by simp [stripUnit])

/-- A qualifying sheet whose unit cell is empty makes `sheetMetadata` diverge
(when a scan exhausts its fuel) or raise `malformedSheet` — never succeed. -/
theorem sheetMetadata_empty_unit (s : Sheet) (idx fuel : Nat) (h : s.cell 3 1 = none) :
    sheetMetadata s idx fuel = MRes.diverge ∨
    sheetMetadata s idx fuel = MRes.err ExtractError.malformedSheet := by
  unfold sheetMetadata
  rcases yearsAux s fuel 2 [] with _ | years
  · exact Or.inl rfl
  · rcases regionsAux s fuel 5 0 [] with _ | regions
    · exact Or.inl rfl
    · rw [h]
      exact Or.inr rfl

/-- With a qualifying sheet whose unit cell is empty anywhere in the list, the
sheet loop of `metadata` can never return a metadata list. -/
theorem metadataAux_not_ok :
    ∀ (wb : List Sheet) (idx fuel i : Nat) (s : Sheet) (ms : List SheetMeta),
      wb.get? i = some s → qualifies s = true → s.cell 3 1 = none →
      metadataAux wb idx fuel ≠ MRes.ok ms := by
  intro wb
  induction wb with
  | nil => intro idx fuel i s ms hget; simp at hget
  | cons s0 rest ih =>
    intro idx fuel i s ms hget hq hu h
    unfold metadataAux at h
    match i, hget with
    | 0, hget =>
      have hs : s0 = s := by simpa using hget
      subst hs
      rw [if_pos hq] at h
      rcases sheetMetadata_empty_unit s0 idx fuel hu with hd | hd <;> rw [hd] at h <;> cases h
    | i + 1, hget =>
      by_cases hq0 : qualifies s0 = true
      · rw [if_pos hq0] at h
        rcases hsm : sheetMetadata s0 idx fuel with _ | e | m0 <;> rw [hsm] at h
        · cases h
        · cases h
        · rcases hrec : metadataAux rest (idx + 1) fuel with _ | e | ms2 <;> rw [hrec] at h
          · cases h
          · cases h
          · exact ih (idx + 1) fuel i s ms2 hget hq hu hrec
      · rw [if_neg hq0] at h
        exact ih (idx + 1) fuel i s ms hget hq hu h

/-- The only error the sheet loop of `metadata` can raise is
`malformedSheet`, from the unit-cell strip. -/
theorem metadataAux_err :
    ∀ (wb : List Sheet) (idx fuel : Nat) (e : ExtractError),
      metadataAux wb idx fuel = MRes.err e → e = ExtractError.malformedSheet := by
  intro wb
  induction wb with
  | nil => intro idx fuel e h; cases h
  | cons s0 rest ih =>
    intro idx fuel e h
    unfold metadataAux at h
    by_cases hq0 : qualifies s0 = true
    · rw [if_pos hq0] at h
      rcases hsm : sheetMetadata s0 idx fuel with _ | e2 | m0 <;> rw [hsm] at h
      · cases h
      · injection h with h
        subst h
        unfold sheetMetadata at hsm
        rcases hy : yearsAux s0 fuel 2 [] with _ | years <;> rw [hy] at hsm
        · cases hsm
        · rcases hr : regionsAux s0 fuel 5 0 [] with _ | regions <;> rw [hr] at hsm
          · cases hsm
          · rcases hst : stripUnit (s0.cell 3 1) with e3 | u <;> rw [hst] at hsm
            · injection hsm with hsm
              rw [← hsm]
              exact stripUnit_err _ _ hst
            · cases hsm
      · rcases hrec : metadataAux rest (idx + 1) fuel with _ | e2 | ms2 <;> rw [hrec] at h
        · cases h
        · injection h with h
          rw [← h]
          exact ih (idx + 1) fuel e2 hrec
        · cases h
    · rw [if_neg hq0] at h
      exact ih (idx + 1) fuel e h

/-- C2: for every qualifying sheet whose unit cell (row 3, column 1) is empty,
the `metadata` call fails with `malformedSheet` (trim cannot be called on the
absent value): whenever the call terminates it raises that error, and it never
returns a (full or partial) metadata list. -/
theorem c2_empty_unit_aborts (wb : Workbook) (fuel i : Nat) (s : Sheet)
    (hget : wb.get? i = some s) (hq : qualifies s = true) (hu : s.cell 3 1 = none) :
    (∀ ms, metadata wb fuel ≠ MRes.ok ms) ∧
    (metadata wb fuel ≠ MRes.diverge →
      metadata wb fuel = MRes.err ExtractError.malformedSheet) := by
  constructor
  · intro ms
    exact metadataAux_not_ok wb 0 fuel i s ms hget hq hu
  · intro hnd
    rcases hres : metadata wb fuel with _ | e | ms
    · exact absurd hres hnd
    · exact congrArg MRes.err (metadataAux_err wb 0 fuel e hres)
    · exact absurd hres (metadataAux_not_ok wb 0 fuel i s ms hget hq hu)

/-- Witness for C2: the one-sheet workbook whose qualifying sheet has an empty
unit cell makes the metadata call raise `malformedSheet`. -/
theorem c2_witness : metadata c2Wb 30 = MRes.err ExtractError.malformedSheet :=
  (c2_empty_unit_aborts c2Wb 30 0 c2Sheet rfl rfl rfl).2 (by decide)

/-- A successful `sheetMetadata` records the sheet's own index. -/
theorem sheetMetadata_index (s : Sheet) (idx fuel : Nat) (m : SheetMeta)
    (h : sheetMetadata s idx fuel = MRes.ok m) : m.index = idx := by
  unfold sheetMetadata at h
  rcases hy : yearsAux s fuel 2 [] with _ | years <;> rw [hy] at h
  · cases h
  · rcases hr : regionsAux s fuel 5 0 [] with _ | regions <;> rw [hr] at h
    · cases h
    · rcases hst : stripUnit (s.cell 3 1) with e | u <;> rw [hst] at h
      · cases h
      · injection h with h
        rw [← h]

/-- Indices recorded by the sheet loop never precede its starting index. -/
theorem metadataAux_index_ge :
    ∀ (wb : List Sheet) (idx fuel : Nat) (ms : List SheetMeta),
      metadataAux wb idx fuel = MRes.ok ms → ∀ m ∈ ms, idx ≤ m.index := by
  intro wb
  induction wb with
  | nil =>
    intro idx fuel ms h m hm
    injection h with h
    subst h
    simp at hm
  | cons s0 rest ih =>
    intro idx fuel ms h m hm
    unfold metadataAux at h
    by_cases hq : qualifies s0 = true
    · rw [if_pos hq] at h
      rcases hsm : sheetMetadata s0 idx fuel with _ | e | m0 <;> rw [hsm] at h
      · cases h
      · cases h
      · rcases hrec : metadataAux rest (idx + 1) fuel with _ | e | ms2 <;> rw [hrec] at h
        · cases h
        · cases h
        · injection h with h
          subst h
          rcases List.mem_cons.mp hm with rfl | hm2
          · rw [sheetMetadata_index s0 idx fuel m hsm]
          · exact le_trans (Nat.le_succ idx) (ih (idx + 1) fuel ms2 hrec m hm2)
    · rw [if_neg hq] at h
      exact le_trans (Nat.le_succ idx) (ih (idx + 1) fuel ms h m hm)

/-- The sheet at offset `j` of the loop's remaining sheets contributes a
record (at index `idx + j`) iff it qualifies. -/
theorem metadataAux_mem_iff :
    ∀ (wb : List Sheet) (idx fuel j : Nat) (s : Sheet) (ms : List SheetMeta),
      metadataAux wb idx fuel = MRes.ok ms → wb.get? j = some s →
      ((∃ m ∈ ms, m.index = idx + j) ↔ qualifies s = true) := by
  intro wb
  induction wb with
  | nil => intro idx fuel j s ms h hget; simp at hget
  | cons s0 rest ih =>
    intro idx fuel j s ms h hget
    unfold metadataAux at h
    match j, hget with
    | 0, hget =>
      have hs : s0 = s := by simpa using hget
      subst hs
      by_cases hq : qualifies s0 = true
      · rw [if_pos hq] at h
        rcases hsm : sheetMetadata s0 idx fuel with _ | e | m0 <;> rw [hsm] at h
        · cases h
        · cases h
        · rcases hrec : metadataAux rest (idx + 1) fuel with _ | e | ms2 <;> rw [hrec] at h
          · cases h
          · cases h
          · injection h with h
            subst h
            simp only [hq, iff_true]
            exact ⟨m0, List.mem_cons_self _ _,
              by rw [sheetMetadata_index s0 idx fuel m0 hsm]; omega⟩
      · rw [if_neg hq] at h
        have hge := metadataAux_index_ge (s0 :: rest) idx fuel ms (by
          unfold metadataAux
          rw [if_neg hq]
          exact h)
        constructor
        · rintro ⟨m, hm, hidx⟩
          have h1 := metadataAux_index_ge rest (idx + 1) fuel ms h m hm
          omega
        · intro hqs
          exact absurd hqs hq
    | j + 1, hget =>
      by_cases hq : qualifies s0 = true
      · rw [if_pos hq] at h
        rcases hsm : sheetMetadata s0 idx fuel with _ | e | m0 <;> rw [hsm] at h
        · cases h
        · cases h
        · rcases hrec : metadataAux rest (idx + 1) fuel with _ | e | ms2 <;> rw [hrec] at h
          · cases h
          · cases h
          · injection h with h
            subst h
            have hiff := ih (idx + 1) fuel j s ms2 hrec hget
            rw [show idx + (j + 1) = idx + 1 + j from by omega]
            constructor
            · rintro ⟨m, hm, hidx⟩
              rcases List.mem_cons.mp hm with rfl | hm2
              · rw [sheetMetadata_index s0 idx fuel m hsm] at hidx
                omega
              · exact hiff.mp ⟨m, hm2, hidx⟩
            · intro hqs
              obtain ⟨m, hm, hidx⟩ := hiff.mpr hqs
              exact ⟨m, List.mem_cons_of_mem _ hm, hidx⟩
      · rw [if_neg hq] at h
        have hiff := ih (idx + 1) fuel j s ms h hget
        rw [show idx + (j + 1) = idx + 1 + j from by omega]
        exact hiff

/-- C8: a sheet contributes a record to the metadata list iff its probe cell
at row 3, column 2 holds an integer; a non-qualifying sheet is silently
excluded (and exclusion is not an error: the call still returns `ok`). -/
theorem c8_qualification (wb : Workbook) (fuel i : Nat) (s : Sheet) (ms : List SheetMeta)
    (h : metadata wb fuel = MRes.ok ms) (hget : wb.get? i = some s) :
    (∃ m ∈ ms, m.index = i) ↔ qualifies s = true := by
  have := metadataAux_mem_iff wb 0 fuel i s ms h hget
  simpa using this

/-- Witness for C8: in the two-sheet workbook, the empty cover sheet (index 0)
contributes no record while the data sheet (index 1) contributes one. -/
theorem c8_witness :
    ((∃ m ∈ [c8Meta], m.index = 1) ↔ qualifies plainSheet = true) ∧
    ((∃ m ∈ [c8Meta], m.index = 0) ↔ qualifies coverSheet = true) :=
  ⟨c8_qualification c8Wb 30 1 plainSheet [c8Meta] (by decide) rfl,
   c8_qualification c8Wb 30 0 coverSheet [c8Meta] (by decide) rfl⟩

/-- Dissection of a successful `cellRow` that emitted a row: the cell was
numeric, the raw unit cell passed the unit filter, and every field of the row
is determined by the cell value, the raw unit cell and the options. -/
theorem cellRow_ok_some (s : Sheet) (tl : String) (o : DSOptions) (w : WikidataDS)
    (y : YearEntry) (rg : RegionEntry) (row : OutputRow)
    (h : cellRow s tl o w y rg = Except.ok (some row)) :
    ∃ q, numVal (s.cell rg.index y.index) = some q ∧
      blockedByFilter o.unitsFilter (s.cell 3 1) = false ∧
      row.value = (coherentApply o.coherentUnits (q, s.cell 3 1)).1 ∧
      row.unit = (coherentApply o.coherentUnits (q, s.cell 3 1)).2 ∧
      row.typeLabel = tl ∧
      row.typeUnit =
        tl ++ " [" ++ pyRepr (coherentApply o.coherentUnits (q, s.cell 3 1)).2 ++ "]" ∧
      row.year = y.label ∧
      row.region = rg.label ∧
      row.wikidata.isSome = wdFlag o := by
  unfold cellRow at h
  rcases hn : numVal (s.cell rg.index y.index) with _ | q
  · rw [hn] at h
    cases h
  · simp only [hn] at h
    refine ⟨q, rfl, ?_⟩
    by_cases hb : blockedByFilter o.unitsFilter (s.cell 3 1) = true
    · rw [if_pos hb] at h
      cases h
    · rw [if_neg hb] at h
      have hb2 : blockedByFilter o.unitsFilter (s.cell 3 1) = false := by
        revert hb
        cases blockedByFilter o.unitsFilter (s.cell 3 1) <;> simp
      refine ⟨hb2, ?_⟩
      by_cases hw : wdFlag o = true
      · rw [if_pos hw] at h
        rcases hl : rg.label with n | qf | rl <;> rw [hl] at h
        · cases h
        · cases h
        · injection h with h
          injection h with h
          subst h
          exact ⟨rfl, rfl, rfl, rfl, rfl, rfl, by simp [hw]⟩
      · rw [if_neg hw] at h
        injection h with h
        injection h with h
        subst h
        have hw2 : wdFlag o = false := by
          revert hw
          cases wdFlag o <;> simp
        exact ⟨rfl, rfl, rfl, rfl, rfl, rfl, by simp [hw2]⟩

/-- Every row of a successful region loop comes from a region of its list
through `cellRow`. -/
theorem regionRows_mem (s : Sheet) (tl : String) (o : DSOptions) (w : WikidataDS)
    (y : YearEntry) :
    ∀ (regions : List RegionEntry) (rows : List OutputRow) (row : OutputRow),
      regionRows s tl o w y regions = Except.ok rows → row ∈ rows →
      ∃ rg ∈ regions, cellRow s tl o w y rg = Except.ok (some row) := by
  intro regions
  induction regions with
  | nil =>
    intro rows row h hr
    injection h with h
    subst h
    simp at hr
  | cons rg rest ih =>
    intro rows row h hr
    unfold regionRows at h
    by_cases hb : blockedByFilter o.regionsFilter (some rg.label) = true
    · rw [if_pos hb] at h
      obtain ⟨rg2, hm, hc⟩ := ih rows row h hr
      exact ⟨rg2, List.mem_cons_of_mem _ hm, hc⟩
    · rw [if_neg hb] at h
      rcases hc : cellRow s tl o w y rg with e | r <;> rw [hc] at h
      · cases h
      · rcases hrest : regionRows s tl o w y rest with e | rs <;> rw [hrest] at h
        · cases h
        · injection h with h
          subst h
          cases r with
          | some row2 =>
            rcases List.mem_cons.mp hr with rfl | hr2
            · exact ⟨rg, List.mem_cons_self _ _, hc⟩
            · obtain ⟨rg2, hm, hc2⟩ := ih rs row hrest hr2
              exact ⟨rg2, List.mem_cons_of_mem _ hm, hc2⟩
          | none =>
            obtain ⟨rg2, hm, hc2⟩ := ih rs row hrest hr
            exact ⟨rg2, List.mem_cons_of_mem _ hm, hc2⟩

/-- Every row of a successful year loop comes from a year of its list and a
region of the region list through `cellRow`. -/
theorem yearRows_mem (s : Sheet) (tl : String) (o : DSOptions) (w : WikidataDS)
    (regions : List RegionEntry) :
    ∀ (years : List YearEntry) (rows : List OutputRow) (row : OutputRow),
      yearRows s tl o w regions years = Except.ok rows → row ∈ rows →
      ∃ y ∈ years, ∃ rg ∈ regions, cellRow s tl o w y rg = Except.ok (some row) := by
  intro years
  induction years with
  | nil =>
    intro rows row h hr
    injection h with h
    subst h
    simp at hr
  | cons y rest ih =>
    intro rows row h hr
    unfold yearRows at h
    by_cases hb : blockedByFilter o.yearsFilter y.label = true
    · rw [if_pos hb] at h
      obtain ⟨y2, hy2, rg, hrg, hc⟩ := ih rows row h hr
      exact ⟨y2, List.mem_cons_of_mem _ hy2, rg, hrg, hc⟩
    · rw [if_neg hb] at h
      rcases hf : yearFactorSkip o.yearsFactor y.label with e | b <;> rw [hf] at h
      · cases h
      · cases b with
        | true =>
          obtain ⟨y2, hy2, rg, hrg, hc⟩ := ih rows row h hr
          exact ⟨y2, List.mem_cons_of_mem _ hy2, rg, hrg, hc⟩
        | false =>
          rcases hreg : regionRows s tl o w y regions with e | rows1 <;> rw [hreg] at h
          · cases h
          · rcases hrest : yearRows s tl o w regions rest with e | rows2 <;> rw [hrest] at h
            · cases h
            · injection h with h
              subst h
              rcases List.mem_append.mp hr with h1 | h2
              · obtain ⟨rg, hrg, hc⟩ := regionRows_mem s tl o w y regions rows1 row hreg h1
                exact ⟨y, List.mem_cons_self _ _, rg, hrg, hc⟩
              · obtain ⟨y2, hy2, rg, hrg, hc⟩ := ih rows2 row hrest h2
                exact ⟨y2, List.mem_cons_of_mem _ hy2, rg, hrg, hc⟩

/-- C7 (amended): a row carries the enrichment fields (the join with the
Wikidata collaborator is performed) when and only when `wikidata_id`,
`wikidata_name`, or a non-empty `wikidata_properties` list is requested —
`wikidata_type` alone does not trigger the join. -/
theorem c7_wikidata_trigger (s : Sheet) (m : SheetMeta) (o : DSOptions) (w : WikidataDS)
    (rows : List OutputRow) (row : OutputRow)
    (h : sheetRows s m o w = Except.ok rows) (hr : row ∈ rows) :
    row.wikidata.isSome =
      (o.wikidataId || o.wikidataName || !o.wikidataProperties.isEmpty) := by
  obtain ⟨y, hy, rg, hrg, hc⟩ := yearRows_mem s m.label o w m.regions m.years rows row h hr
  obtain ⟨q, hq⟩ := cellRow_ok_some s m.label o w y rg row hc
  exact hq.2.2.2.2.2.2.2.2

/-- C7 counterexample: requesting only `wikidata_type=True` — a
Wikidata-related option — does not perform the enrichment join: the emitted
row carries no enrichment fields, because line 113 omits `wikidata_type`
from the trigger. -/
theorem c7_counterexample :
    datasource plainWb oTypeOnly noWD 30 = MRes.ok [c7Row] ∧
    c7Row.wikidata = none ∧
    oTypeOnly.wikidataType = true := by
  refine ⟨by decide, rfl, rfl⟩

/-- Witness for C7 (amended): with `wikidata_id=True` the emitted row carries
the (null) enrichment fields, matching the trigger value. -/
theorem c7_witness :
    c7wRow.wikidata.isSome =
      (oWdId.wikidataId || oWdId.wikidataName || !oWdId.wikidataProperties.isEmpty) :=
  c7_wikidata_trigger plainSheet c8Meta oWdId noWD [c7wRow] c7wRow (by decide) (by decide)

/-- When the unit filter rejects the sheet's raw unit cell, no cell of the
sheet emits a row, and the rejection occurs before any conversion or
enrichment could run. -/
theorem cellRow_unit_blocked (s : Sheet) (tl : String) (o : DSOptions) (w : WikidataDS)
    (hb : blockedByFilter o.unitsFilter (s.cell 3 1) = true)
    (y : YearEntry) (rg : RegionEntry) :
    cellRow s tl o w y rg = Except.ok none := by
  unfold cellRow
  rcases hn : numVal (s.cell rg.index y.index) with _ | q
  · rfl
  · simp [hb]

/-- A region loop over cells that all emit nothing returns no rows and no
error. -/
theorem regionRows_none (s : Sheet) (tl : String) (o : DSOptions) (w : WikidataDS)
    (y : YearEntry) (hc : ∀ rg, cellRow s tl o w y rg = Except.ok none) :
    ∀ regions, regionRows s tl o w y regions = Except.ok [] := by
  intro regions
  induction regions with
  | nil => rfl
  | cons rg rest ih =>
    unfold regionRows
    by_cases hb : blockedByFilter o.regionsFilter (some rg.label) = true
    · rw [if_pos hb]
      exact ih
    · rw [if_neg hb, hc rg, ih]

/-- A year loop (with no decimation factor) over cells that all emit nothing
returns no rows and no error. -/
theorem yearRows_none (s : Sheet) (tl : String) (o : DSOptions) (w : WikidataDS)
    (regions : List RegionEntry) (hfac : o.yearsFactor = none)
    (hc : ∀ y rg, cellRow s tl o w y rg = Except.ok none) :
    ∀ years, yearRows s tl o w regions years = Except.ok [] := by
  intro years
  induction years with
  | nil => rfl
  | cons y rest ih =>
    unfold yearRows
    by_cases hb : blockedByFilter o.yearsFilter y.label = true
    · rw [if_pos hb]
      exact ih
    · rw [if_neg hb, hfac, regionRows_none s tl o w y (hc y) regions, ih]
      rfl

/-- C3: the unit filter is tested against the sheet's raw declared unit cell
before any coherent-units conversion: a `units_filter` of `["Petajoules"]`
emits zero rows from a sheet whose declared unit is `"Terawatt-hours"`, even
though, with `coherent_units=true` and no unit filter, every row emitted from
that sheet carries the unit `"Petajoules"`. -/
theorem c3_units_filter_preconversion (s : Sheet) (m : SheetMeta) (o : DSOptions)
    (w : WikidataDS)
    (hu : s.cell 3 1 = some (CellValue.vStr "Terawatt-hours"))
    (hf : o.unitsFilter = some [some (CellValue.vStr "Petajoules")])
    (hfac : o.yearsFactor = none) :
    sheetRows s m o w = Except.ok [] ∧
    (∀ (o2 : DSOptions) (rows : List OutputRow) (row : OutputRow),
        o2.coherentUnits = true → sheetRows s m o2 w = Except.ok rows → row ∈ rows →
        row.unit = some (CellValue.vStr "Petajoules")) := by
  constructor
  · have hb : blockedByFilter o.unitsFilter (s.cell 3 1) = true := by
      rw [hu, hf]
      rfl
    exact yearRows_none s m.label o w m.regions hfac
      (fun y rg => cellRow_unit_blocked s m.label o w hb y rg) m.years
  · intro o2 rows row hc2 h hr
    obtain ⟨y, hy, rg, hrg, hc⟩ := yearRows_mem s m.label o2 w m.regions m.years rows row h hr
    obtain ⟨q, hq⟩ := cellRow_ok_some s m.label o2 w y rg row hc
    rw [hq.2.2.2.1, hu, hc2]
    rfl

/-- Witness for C3: the Terawatt-hours sheet emits no rows under the
Petajoules filter, and with no filter its row is emitted as Petajoules. -/
theorem c3_witness :
    sheetRows twhSheet twhMeta oPJFilter noWD = Except.ok [] ∧
    c10Row.unit = some (CellValue.vStr "Petajoules") := by
  constructor
  · exact (c3_units_filter_preconversion twhSheet twhMeta oPJFilter noWD rfl rfl rfl).1
  · exact (c3_units_filter_preconversion twhSheet twhMeta oPJFilter noWD rfl rfl rfl).2
      oDefault [c10Row] c10Row rfl
      (by set_option maxRecDepth 10000 in with_unfolding_all decide) (by decide)

/-- C5: with `coherent_units=true`, a value declared in Terawatt-hours is
multiplied by 3.6 (so raw 10 becomes 36.0) and relabelled Petajoules,
Exajoules is multiplied by 1000 to Petajoules, Exajoules (input-equivalent)
is multiplied by 1000 to Petajoules (input-equivalent), any other declared
unit passes through with value and unit unchanged — and every emitted row's
value and unit are exactly this conversion applied to its cell's raw value
and the sheet's raw unit cell. -/
theorem c5_unit_conversion :
    (∀ q : Rat, coherentApply true (q, some (CellValue.vStr "Terawatt-hours")) =
        (q * (36 / 10), some (CellValue.vStr "Petajoules"))) ∧
    (∀ q : Rat, coherentApply true (q, some (CellValue.vStr "Exajoules")) =
        (q * 1000, some (CellValue.vStr "Petajoules"))) ∧
    (∀ q : Rat, coherentApply true (q, some (CellValue.vStr "Exajoules (input-equivalent)")) =
        (q * 1000, some (CellValue.vStr "Petajoules (input-equivalent)"))) ∧
    ((10 : Rat) * (36 / 10) = 36) ∧
    (∀ (q : Rat) (u : Option CellValue),
        u ≠ some (CellValue.vStr "Terawatt-hours") →
        u ≠ some (CellValue.vStr "Exajoules") →
        u ≠ some (CellValue.vStr "Exajoules (input-equivalent)") →
        coherentApply true (q, u) = (q, u)) ∧
    (∀ (s : Sheet) (m : SheetMeta) (o : DSOptions) (w : WikidataDS)
        (rows : List OutputRow) (row : OutputRow),
        o.coherentUnits = true → sheetRows s m o w = Except.ok rows → row ∈ rows →
        ∃ (y : YearEntry) (rg : RegionEntry) (q : Rat), y ∈ m.years ∧ rg ∈ m.regions ∧
          numVal (s.cell rg.index y.index) = some q ∧
          row.value = (coherentApply true (q, s.cell 3 1)).1 ∧
          row.unit = (coherentApply true (q, s.cell 3 1)).2) := by
  refine ⟨fun q => rfl, fun q => rfl, fun q => rfl, by norm_num, ?_, ?_⟩
  · intro q u h1 h2 h3
    simp [coherentApply, h1, h2, h3]
  · intro s m o w rows row hc2 h hr
    obtain ⟨y, hy, rg, hrg, hc⟩ := yearRows_mem s m.label o w m.regions m.years rows row h hr
    obtain ⟨q, hq⟩ := cellRow_ok_some s m.label o w y rg row hc
    refine ⟨y, rg, q, hy, hrg, hq.1, ?_, ?_⟩
    · rw [hq.2.2.1, hc2]
    · rw [hq.2.2.2.1, hc2]

/-- Witness for C5: the conversion at raw value 10 under Terawatt-hours gives
36 Petajoules, a non-convertible unit is unchanged, and the emitted row of
the concrete Terawatt-hours sheet decomposes through the conversion. -/
theorem c5_witness :
    coherentApply true (10, some (CellValue.vStr "Terawatt-hours")) =
      (36, some (CellValue.vStr "Petajoules")) ∧
    coherentApply true (2, some (CellValue.vStr "Billion cubic metres")) =
      (2, some (CellValue.vStr "Billion cubic metres")) ∧
    (∃ (y : YearEntry) (rg : RegionEntry) (q : Rat), y ∈ twhMeta.years ∧ rg ∈ twhMeta.regions ∧
      numVal (twhSheet.cell rg.index y.index) = some q ∧
      c10Row.value = (coherentApply true (q, twhSheet.cell 3 1)).1 ∧
      c10Row.unit = (coherentApply true (q, twhSheet.cell 3 1)).2) := by
  refine ⟨?_, ?_, ?_⟩
  · rw [c5_unit_conversion.1 10, c5_unit_conversion.2.2.2.1]
  · exact c5_unit_conversion.2.2.2.2.1 2 (some (CellValue.vStr "Billion cubic metres"))
      (by decide) (by decide) (by decide)
  · exact c5_unit_conversion.2.2.2.2.2 twhSheet twhMeta oDefault noWD [c10Row] c10Row rfl
      (by set_option maxRecDepth 10000 in with_unfolding_all decide) (by decide)

/-- A filtered map keeps the full length iff the function succeeds on every
element. -/
theorem filterMap_length_eq_iff {α β : Type} (f : α → Option β) :
    ∀ l : List α, ((l.filterMap f).length = l.length ↔ ∀ a ∈ l, (f a).isSome = true) := by
  intro l
  induction l with
  | nil => simp
  | cons a l ih =>
    rcases h : f a with _ | b
    · simp only [List.filterMap_cons, h, List.length_cons]
      constructor
      · intro hlen
        exfalso
        have := List.length_filterMap_le f l
        omega
      · intro hall
        have h2 := hall a (List.mem_cons_self a l)
        rw [h] at h2
        simp at h2
    · simp only [List.filterMap_cons, h, List.length_cons]
      constructor
      · intro hlen a2 ha2
        rcases List.mem_cons.mp ha2 with rfl | hm
        · rw [h]
          rfl
        · exact (ih.mp (by omega)) a2 hm
      · intro hall
        have := ih.mpr (fun a2 hm => hall a2 (List.mem_cons_of_mem _ hm))
        omega

/-- A flat map whose blocks are bounded by `k` has at most `k` entries per
element. -/
theorem flatMap_length_le {α β : Type} (g : α → List β) (k : Nat)
    (hk : ∀ a, (g a).length ≤ k) :
    ∀ l : List α, (l.flatMap g).length ≤ l.length * k := by
  intro l
  induction l with
  | nil => simp
  | cons a l ih =>
    rw [List.flatMap_cons, List.length_append, List.length_cons, add_one_mul]
    have := hk a
    omega

/-- A flat map with blocks bounded by `k` reaches `k` entries per element iff
every block is full. -/
theorem flatMap_length_eq_iff {α β : Type} (g : α → List β) (k : Nat)
    (hk : ∀ a, (g a).length ≤ k) :
    ∀ l : List α, ((l.flatMap g).length = l.length * k ↔ ∀ a ∈ l, (g a).length = k) := by
  intro l
  induction l with
  | nil => simp
  | cons a l ih =>
    rw [List.flatMap_cons, List.length_append, List.length_cons, add_one_mul]
    constructor
    · intro hlen a2 ha2
      have h1 := hk a
      have h2 := flatMap_length_le g k hk l
      rcases List.mem_cons.mp ha2 with rfl | hm
      · omega
      · exact (ih.mp (by omega)) a2 hm
    · intro hall
      have h1 := hall a (List.mem_cons_self a l)
      have h2 := ih.mpr (fun a2 hm => hall a2 (List.mem_cons_of_mem _ hm))
      omega

/-- With no unit filter and no enrichment, a cell emits exactly one row when
numeric and nothing otherwise, never an error. -/
theorem cellRow_plain (s : Sheet) (tl : String) (o : DSOptions) (w : WikidataDS)
    (y : YearEntry) (rg : RegionEntry)
    (hunits : o.unitsFilter = none) (hw : wdFlag o = false) :
    cellRow s tl o w y rg =
      Except.ok ((numVal (s.cell rg.index y.index)).map
        (plainRow s tl o.coherentUnits y rg)) := by
  unfold cellRow
  rcases hn : numVal (s.cell rg.index y.index) with _ | q
  · rfl
  · simp [hunits, hw, blockedByFilter, plainRow]

/-- With no region or unit filter and no enrichment, the region loop is a
filtered map over the numeric cells. -/
theorem regionRows_plain (s : Sheet) (tl : String) (o : DSOptions) (w : WikidataDS)
    (y : YearEntry) (hreg : o.regionsFilter = none)
    (hunits : o.unitsFilter = none) (hw : wdFlag o = false) :
    ∀ regions, regionRows s tl o w y regions =
      Except.ok (regions.filterMap
        (fun rg => (numVal (s.cell rg.index y.index)).map
          (plainRow s tl o.coherentUnits y rg))) := by
  intro regions
  induction regions with
  | nil => rfl
  | cons rg rest ih =>
    unfold regionRows
    have hb : blockedByFilter o.regionsFilter (some rg.label) = false := by
      rw [hreg]
      rfl
    simp only [hb, Bool.false_eq_true, if_false]
    rw [cellRow_plain s tl o w y rg hunits hw, ih]
    rcases hn : numVal (s.cell rg.index y.index) with _ | q <;>
      simp [List.filterMap_cons, hn]

/-- With no filters and no enrichment, the year loop is the flat map of the
per-year filtered maps over the numeric cells. -/
theorem yearRows_plain (s : Sheet) (tl : String) (o : DSOptions) (w : WikidataDS)
    (regions : List RegionEntry) (hreg : o.regionsFilter = none)
    (hunits : o.unitsFilter = none) (hyrf : o.yearsFilter = none)
    (hfac : o.yearsFactor = none) (hw : wdFlag o = false) :
    ∀ years, yearRows s tl o w regions years =
      Except.ok (years.flatMap (fun y => regions.filterMap
        (fun rg => (numVal (s.cell rg.index y.index)).map
          (plainRow s tl o.coherentUnits y rg)))) := by
  intro years
  induction years with
  | nil => rfl
  | cons y rest ih =>
    unfold yearRows
    have hb : blockedByFilter o.yearsFilter y.label = false := by
      rw [hyrf]
      rfl
    simp only [hb, Bool.false_eq_true, if_false]
    rw [hfac, regionRows_plain s tl o w y hreg hunits hw regions, ih]
    rfl

/-- C6: with no filters and no enrichment options, a sheet with Y discovered
years and R discovered regions emits at most Y×R rows — and no error — with
equality exactly when every cell at a (region row, year column) position is
numeric; a non-numeric or empty data cell emits no row and raises no
error. -/
theorem c6_row_count (s : Sheet) (m : SheetMeta) (o : DSOptions) (w : WikidataDS)
    (hreg : o.regionsFilter = none) (hunits : o.unitsFilter = none)
    (hyrf : o.yearsFilter = none) (hfac : o.yearsFactor = none)
    (hwid : o.wikidataId = false) (hwname : o.wikidataName = false)
    (hwprops : o.wikidataProperties = []) :
    ∃ rows, sheetRows s m o w = Except.ok rows ∧
      rows.length ≤ m.years.length * m.regions.length ∧
      (rows.length = m.years.length * m.regions.length ↔
        ∀ y ∈ m.years, ∀ rg ∈ m.regions,
          (numVal (s.cell rg.index y.index)).isSome = true) := by
  have hw : wdFlag o = false := by
    rw [wdFlag, hwid, hwname, hwprops]
    rfl
  refine ⟨_, yearRows_plain s m.label o w m.regions hreg hunits hyrf hfac hw m.years, ?_, ?_⟩
  · exact flatMap_length_le _ m.regions.length
      (fun y => List.length_filterMap_le _ _) m.years
  · rw [flatMap_length_eq_iff _ m.regions.length
      (fun y => List.length_filterMap_le _ _) m.years]
    refine ⟨fun hall y hy rg hrg => ?_, fun hall y hy => ?_⟩
    · have h2 := (filterMap_length_eq_iff _ m.regions).mp (hall y hy) rg hrg
      rcases hnv : numVal (s.cell rg.index y.index) with _ | q
      · rw [hnv] at h2
        simp at h2
      · rfl
    · refine (filterMap_length_eq_iff _ m.regions).mpr (fun rg hrg => ?_)
      have h2 := hall y hy rg hrg
      rcases hnv : numVal (s.cell rg.index y.index) with _ | q
      · rw [hnv] at h2
        simp at h2
      · simp [hnv]

/-- Witness for C6: the 2-year × 2-region sheet with one text cell emits 3 of
the 4 possible rows, so the bound holds and the equality side of the iff
fails together with the all-numeric side. -/
theorem c6_witness :
    ∃ rows, sheetRows mixSheet mixMeta oDefault noWD = Except.ok rows ∧
      rows.length ≤ mixMeta.years.length * mixMeta.regions.length ∧
      (rows.length = mixMeta.years.length * mixMeta.regions.length ↔
        ∀ y ∈ mixMeta.years, ∀ rg ∈ mixMeta.regions,
          (numVal (mixSheet.cell rg.index y.index)).isSome = true) :=
  c6_row_count mixSheet mixMeta oDefault noWD rfl rfl rfl rfl rfl rfl rfl

/-- C10 counterexample: under the default `coherent_units=true`, the row
emitted from the Terawatt-hours sheet has `"Petajoules"` written into its
Unit field, not the raw value of cell (3, 1), so the claim that the written
unit value is always the raw cell value fails. -/
theorem c10_counterexample :
    sheetRows twhSheet twhMeta oDefault noWD = Except.ok [c10Row] ∧
    twhSheet.cell 3 1 = some (CellValue.vStr "Terawatt-hours") ∧
    c10Row.unit = some (CellValue.vStr "Petajoules") ∧
    c10Row.unit ≠ twhSheet.cell 3 1 := by
  refine ⟨by set_option maxRecDepth 10000 in with_unfolding_all decide, rfl, rfl, by decide⟩

/-- C10 amended: the unit value tested against `units_filter` is the raw value
of cell (3, 1) without whitespace trimming, and the value written into Unit
and TypeUnit is that same raw value whenever no coherent-units conversion
rewrites it (in particular whenever `coherent_units=false`), whereas
`metadata` reports that cell trimmed; consequently, for a sheet whose unit
cell carries surrounding whitespace, a `units_filter` containing the trimmed
unit string shown by `metadata` matches zero rows from that sheet. -/
theorem c10_raw_unit (s : Sheet) (m : SheetMeta) (o : DSOptions) (w : WikidataDS)
    (u : String) (hu : s.cell 3 1 = some (CellValue.vStr u)) :
    stripUnit (s.cell 3 1) = Except.ok (pyStrip u) ∧
    (o.unitsFilter = some [some (CellValue.vStr (pyStrip u))] → pyStrip u ≠ u →
      o.yearsFactor = none → sheetRows s m o w = Except.ok []) ∧
    (∀ (rows : List OutputRow) (row : OutputRow), o.coherentUnits = false →
      sheetRows s m o w = Except.ok rows → row ∈ rows →
      row.unit = some (CellValue.vStr u) ∧
      row.typeUnit = m.label ++ " [" ++ u ++ "]") := by
  refine ⟨by rw [hu]; rfl, ?_, ?_⟩
  · intro hf hne hfac
    have hb : blockedByFilter o.unitsFilter (s.cell 3 1) = true := by
      rw [hu, hf]
      simp [blockedByFilter]
      exact fun hh => hne hh.symm
    exact yearRows_none s m.label o w m.regions hfac
      (fun y rg => cellRow_unit_blocked s m.label o w hb y rg) m.years
  · intro rows row hcoh h hr
    obtain ⟨y, hy, rg, hrg, hc⟩ := yearRows_mem s m.label o w m.regions m.years rows row h hr
    obtain ⟨q, hq⟩ := cellRow_ok_some s m.label o w y rg row hc
    constructor
    · rw [hq.2.2.2.1, hcoh, hu]
      rfl
    · rw [hq.2.2.2.2.2.1, hcoh, hu]
      rfl

/-- Witness for C10 (amended): the padded-unit sheet's metadata strip yields
the trimmed string, while a `units_filter` holding that trimmed string
matches zero rows. -/
theorem c10_witness :
    stripUnit (padSheet.cell 3 1) = Except.ok "Terawatt-hours" ∧
    sheetRows padSheet padMeta oTrimFilter noWD = Except.ok [] := by
  have h := c10_raw_unit padSheet padMeta oTrimFilter noWD " Terawatt-hours " rfl
  exact ⟨h.1, h.2.1 (by decide) (by decide) rfl⟩
